import Mathlib

/-!
Shallow embedding of the video-catalog backend (FastAPI + SQLAlchemy sources:
`models.py`, `crud.py`, `routers/videos.py`, `routers/comments.py`,
`routers/likes.py`) used to settle the frozen specification claims.

Modelling conventions:
* UUIDs are `Nat` identifiers; timestamps are `Nat`.
* The relational store is a `DB` record of lists of rows, in insertion
  order (a `SELECT` without `ORDER BY` returns store order).
* A SQLAlchemy transaction is modelled by computing the successor state
  atomically: an operation returns the post-state together with an
  `Except` result, and every error (Python exception → rollback / no
  commit) returns the original state unchanged.
* External effects (Vimeo upload/delete, thumbnail storage) are modelled
  by oracle parameters giving the outcome of each call, plus an explicit
  trace of the external actions the handler actually performed.
-/

namespace VideoApp

/-- A row of the `users` table (`models.User`); only the fields the claims
need (identity and the admin flag). -/
structure UserRow where
  id : Nat
  is_admin : Bool
  deriving Repr, DecidableEq

/-- A row of the `categories` table (`models.Category`). -/
structure CategoryRow where
  id : Nat
  name : String
  deriving Repr, DecidableEq

/-- A row of the `videos` table (`models.Video`).  Note there is no stored
like/comment counter column on this table. -/
structure VideoRow where
  id : Nat
  title : String
  category_id : Option Nat
  vimeo_url : Option String
  vimeo_id : Option String
  thumbnail_url : Option String
  created_date : Nat
  deriving Repr, DecidableEq

/-- A row of the `likes` table (`models.Like`). -/
structure LikeRow where
  id : Nat
  user_id : Nat
  video_id : Nat
  deriving Repr, DecidableEq

/-- A row of the `comments` table (`models.Comment`). -/
structure CommentRow where
  id : Nat
  user_id : Nat
  video_id : Nat
  text : String
  deriving Repr, DecidableEq

/-- The relational store: one list of rows per table, in insertion order. -/
structure DB where
  users : List UserRow
  categories : List CategoryRow
  videos : List VideoRow
  likes : List LikeRow
  comments : List CommentRow
  deriving Repr, DecidableEq

/-- Error kinds of the HTTP layer (`fastapi.HTTPException` by status). -/
inductive ApiError where
  | notFound (detail : String)
  | badRequest (detail : String)
  | unsupportedMedia (detail : String)
  | serverError (detail : String)
  deriving Repr, DecidableEq

/-- `schemas.LikeCreate`. -/
structure LikeCreate where
  user_id : Nat
  video_id : Nat
  deriving Repr, DecidableEq

/-- `schemas.CommentCreate`. -/
structure CommentCreate where
  video_id : Nat
  text : String
  deriving Repr, DecidableEq

/-- `schemas.VideoUpdate` after pydantic `model_dump(exclude_unset=True)`:
`none` means the field was not supplied in the request body. -/
structure VideoUpdate where
  title : Option String
  category_id : Option Nat
  thumbnail_url : Option String
  deriving Repr, DecidableEq

/-- `crud.get_like_count`: `SELECT count(likes.id) WHERE likes.video_id = v`
followed by Python `result or 0`. -/
def get_like_count (db : DB) (video_id : Nat) : Nat :=
  (Option.some ((db.likes.filter (fun l => l.video_id == video_id)).length)).getD 0

/-- `crud.get_comment_count`: `SELECT count(comments.id) WHERE
comments.video_id = v` followed by Python `result or 0`. -/
def get_comment_count (db : DB) (video_id : Nat) : Nat :=
  (Option.some ((db.comments.filter (fun c => c.video_id == video_id)).length)).getD 0

/-- `crud.add_like`: look up an existing Like for the (user, video) pair;
raise `ValueError` (mapped to HTTP 400 by `routers/likes.py`) if present,
else insert a new Like row and commit.  `new_id` models the `uuid4`
default primary key. -/
def add_like (db : DB) (lk : LikeCreate) (new_id : Nat) : DB × Except String LikeRow :=
  if db.likes.any (fun l => l.user_id == lk.user_id && l.video_id == lk.video_id) then
    (db, Except.error "User has already liked this video")
  else
    let db_like : LikeRow := { id := new_id, user_id := lk.user_id, video_id := lk.video_id }
    ({ db with likes := db.likes ++ [db_like] }, Except.ok db_like)

/-- `crud.remove_like`: find the Like for the pair; raise `ValueError` if
absent, else delete it and commit. -/
def remove_like (db : DB) (user_id video_id : Nat) : DB × Except String LikeRow :=
  match db.likes.find? (fun l => l.user_id == user_id && l.video_id == video_id) with
  | none => (db, Except.error "Like not found")
  | some l =>
      ({ db with likes := db.likes.filter (fun k => !(k.id == l.id)) }, Except.ok l)

/-- The update dictionary of `crud.update_video` after the
`allowed_fields` filter (all three `VideoUpdate` fields are allowed, so
the filter keeps everything); `true` iff the change set is empty. -/
def VideoUpdate.isEmptySet (u : VideoUpdate) : Bool :=
  u.title.isNone && u.category_id.isNone && u.thumbnail_url.isNone

/-- The `setattr` loop of `crud.update_video`. -/
def applyVideoUpdate (v : VideoRow) (u : VideoUpdate) : VideoRow :=
  { v with
    title := u.title.getD v.title,
    category_id := match u.category_id with
      | some c => some c
      | none => v.category_id,
    thumbnail_url := match u.thumbnail_url with
      | some t => some t
      | none => v.thumbnail_url }

/-- Committing a modified video row: replace the row with the same
primary key. -/
def commitVideo (db : DB) (v : VideoRow) : DB :=
  { db with videos := db.videos.map (fun w => if w.id == v.id then v else w) }

/-- `crud.update_video`: if the change set (after `exclude_unset` and the
`allowed_fields` filter) is empty, return the record immediately with no
`db.add`/`db.commit`; otherwise apply the `setattr` loop and commit.  The
`Bool` records whether a commit was performed. -/
def update_video (db : DB) (db_video : VideoRow) (u : VideoUpdate) : DB × VideoRow × Bool :=
  if u.isEmptySet then
    (db, db_video, false)
  else
    let v2 := applyVideoUpdate db_video u
    (commitVideo db v2, v2, true)

/-- `crud.update_comment`: load by id, raise `ValueError` when missing or
when the requester is not the author, else overwrite the text and
commit.  Only `user_id` is consulted — there is no admin bypass. -/
def update_comment (db : DB) (comment_id : Nat) (new_text : String) (user_id : Nat) :
    DB × Except String CommentRow :=
  match db.comments.find? (fun c => c.id == comment_id) with
  | none => (db, Except.error "Comment not found")
  | some c =>
      if !(c.user_id == user_id) then
        (db, Except.error "You are not authorized to edit this comment")
      else
        let c2 := { c with text := new_text }
        ({ db with comments := db.comments.map (fun k => if k.id == comment_id then c2 else k) },
          Except.ok c2)

/-- `crud.delete_comment`: load by id, raise `ValueError` when missing or
when the requester is not the author, else delete the row and commit.
Only `current_user_id` is consulted — there is no admin bypass. -/
def delete_comment (db : DB) (comment_id : Nat) (current_user_id : Nat) :
    DB × Except String String :=
  match db.comments.find? (fun c => c.id == comment_id) with
  | none => (db, Except.error "Comment not found")
  | some c =>
      if !(c.user_id == current_user_id) then
        (db, Except.error "You are not authorized to delete this comment")
      else
        ({ db with comments := db.comments.filter (fun k => !(k.id == comment_id)) },
          Except.ok "Comment deleted successfully")

/-- `crud.add_comment(db, comment, user_id)`: build a Comment row from the
`CommentCreate` payload plus the caller id, insert and commit. -/
def add_comment (db : DB) (comment : CommentCreate) (user_id : Nat) (new_id : Nat) :
    DB × CommentRow :=
  let db_comment : CommentRow :=
    { id := new_id, user_id := user_id, video_id := comment.video_id, text := comment.text }
  ({ db with comments := db.comments ++ [db_comment] }, db_comment)

/-- Python truthiness of `video.vimeo_id` (`None` and `""` are falsy). -/
def vimeoIdTruthy (v : VideoRow) : Bool :=
  match v.vimeo_id with
  | some s => !(s == "")
  | none => false

/-- `routers/videos.py::delete_video` (DELETE `/videos/{video_id}`),
executed inside `async with db.begin()`: load the video; 404 when absent;
call the Vimeo delete when `video.vimeo_id` is truthy and abort with HTTP
500 ("Vimeo API error") when it fails; otherwise delete the video's
Comment rows, its Like rows and the Video row and commit the transaction
at block exit.  Any raised exception rolls the transaction back, so every
error path returns the store unchanged.  `vimeoDeleteOk` is the oracle
for the external `client.delete` call (success =
status 204).  The best-effort local thumbnail-file removal (step 6)
touches no catalog state and is not modelled. -/
def delete_video_route (db : DB) (video_id : Nat) (vimeoDeleteOk : Bool) :
    DB × Except ApiError String :=
  match db.videos.find? (fun v => v.id == video_id) with
  | none => (db, Except.error (ApiError.notFound "Video not found"))
  | some v =>
      if vimeoIdTruthy v && !vimeoDeleteOk then
        (db, Except.error (ApiError.serverError "Vimeo API error"))
      else
        ({ db with
            comments := db.comments.filter (fun c => !(c.video_id == video_id)),
            likes := db.likes.filter (fun l => !(l.video_id == video_id)),
            videos := db.videos.filter (fun w => !(w.id == video_id)) },
          Except.ok "Video deleted successfully")

/-- Successful result of `vimeo_client.upload_to_vimeo` (the
`vimeo_data` dictionary used by the create handler). -/
structure UploadData where
  vimeo_url : String
  vimeo_id : String
  deriving Repr, DecidableEq

/-- External side effects performed by the create handler. -/
inductive ExtAction where
  | vimeoUpload
  | vimeoDelete (vimeo_id : String)
  | thumbnailStore
  deriving Repr, DecidableEq

instance {ε α : Type} [DecidableEq ε] [DecidableEq α] : DecidableEq (Except ε α) :=
  fun x y =>
    match x, y with
    | Except.ok a, Except.ok b =>
        if h : a = b then isTrue (by rw [h]) else isFalse (by intro hc; cases hc; exact h rfl)
    | Except.ok _, Except.error _ => isFalse (by intro hc; cases hc)
    | Except.error _, Except.ok _ => isFalse (by intro hc; cases hc)
    | Except.error e, Except.error f =>
        if h : e = f then isTrue (by rw [h]) else isFalse (by intro hc; cases hc; exact h rfl)

/-- Outcome of one run of the create handler: post-state of the store,
HTTP result, and the trace of external actions performed. -/
structure CreateOutcome where
  db : DB
  result : Except ApiError VideoRow
  actions : List ExtAction
  deriving Repr, DecidableEq

/-- The video content-type allow-list of `routers/videos.py::create_video`. -/
def allowedVideoTypes : List String := ["video/mp4", "video/quicktime", "video/x-msvideo"]

/-- The thumbnail content-type allow-list of `routers/videos.py`. -/
def allowedImageTypes : List String := ["image/jpeg", "image/png", "image/gif"]

/-- Whether the trace contains a Vimeo delete call. -/
def hasVimeoDelete (acts : List ExtAction) : Bool :=
  acts.any (fun a =>
    match a with
    | ExtAction.vimeoDelete _ => true
    | _ => false)

/-- Whether an `Except` result is a success. -/
def isOk {ε α : Type} (r : Except ε α) : Bool :=
  match r with
  | Except.ok _ => true
  | Except.error _ => false

/-- `routers/videos.py::create_video` (POST `/videos/`), with the external
calls given by oracles: `uploadResult` is the outcome of
`upload_to_vimeo`, `thumbStoreOk` the outcome of storing the thumbnail
file, `persistOk` the outcome of the `crud.create_video` commit.
Faithful control flow: (1) reject a non-allow-listed video content type
with HTTP 415; (2) reject a bad thumbnail content type with HTTP 415
before any upload; (3) upload to Vimeo, aborting with HTTP 500 on
failure; (4) store the thumbnail if supplied, aborting with HTTP 500 on
failure; (5) persist via `crud.create_video`, aborting with HTTP 500 on
failure.  No error path performs a compensating Vimeo delete.  Temp-file
cleanup in `finally` touches no modelled state. -/
def create_video_route (db : DB) (title : String) (category_id : Nat)
    (fileType : String) (thumbType : Option String)
    (uploadResult : Except String UploadData)
    (thumbStoreOk : Bool) (thumbUrl : String)
    (persistOk : Bool) (new_id now : Nat) : CreateOutcome :=
  if !(allowedVideoTypes.contains fileType) then
    { db := db,
      result := Except.error (ApiError.unsupportedMedia
        "Unsupported file type. Only MP4, MOV, and AVI are allowed."),
      actions := [] }
  else if (match thumbType with
           | some t => !(allowedImageTypes.contains t)
           | none => false) then
    { db := db,
      result := Except.error (ApiError.unsupportedMedia
        "Unsupported thumbnail type. Only JPEG, PNG, and GIF are allowed."),
      actions := [] }
  else
    match uploadResult with
    | Except.error e =>
        { db := db,
          result := Except.error (ApiError.serverError
            ("Failed to upload video to Vimeo: " ++ e)),
          actions := [ExtAction.vimeoUpload] }
    | Except.ok vimeo_data =>
        if thumbType.isSome && !thumbStoreOk then
          { db := db,
            result := Except.error (ApiError.serverError "Failed to upload thumbnail"),
            actions := [ExtAction.vimeoUpload, ExtAction.thumbnailStore] }
        else
          let acts := ExtAction.vimeoUpload ::
            (if thumbType.isSome then [ExtAction.thumbnailStore] else [])
          let thumbnail_url : Option String :=
            if thumbType.isSome then some thumbUrl else none
          if !persistOk then
            { db := db,
              result := Except.error (ApiError.serverError "Failed to save video to database"),
              actions := acts }
          else
            let db_video : VideoRow :=
              { id := new_id, title := title, category_id := some category_id,
                vimeo_url := some vimeo_data.vimeo_url,
                vimeo_id := some vimeo_data.vimeo_id,
                thumbnail_url := thumbnail_url, created_date := now }
            { db := { db with videos := db.videos ++ [db_video] },
              result := Except.ok db_video,
              actions := acts }

/-- Category name for a video's `category_id` under the outer join of
`crud.get_all_videos`. -/
def categoryName (db : DB) (cid : Option Nat) : Option String :=
  match cid with
  | none => none
  | some c => (db.categories.find? (fun k => k.id == c)).map (fun k => k.name)

/-- One element of the listing produced by `crud.get_all_videos` /
`crud.get_recent_videos` (the response dictionary). -/
structure VideoListRow where
  id : Nat
  title : String
  created_date : Nat
  vimeo_url : Option String
  vimeo_id : Option String
  thumbnail_url : Option String
  category : Option String
  like_count : Nat
  comment_count : Nat
  deriving Repr, DecidableEq

/-- Build the response row of `crud.get_all_videos` for one video. -/
def videoListRowOf (db : DB) (v : VideoRow) : VideoListRow :=
  { id := v.id, title := v.title, created_date := v.created_date,
    vimeo_url := v.vimeo_url, vimeo_id := v.vimeo_id,
    thumbnail_url := v.thumbnail_url,
    category := categoryName db v.category_id,
    like_count := get_like_count db v.id,
    comment_count := get_comment_count db v.id }

/-- `crud.get_all_videos`: `SELECT` of the video columns joined with the
category name, `WHERE category_id = c` when a category filter is given
(SQL applies `WHERE` before `OFFSET`/`LIMIT` regardless of builder call
order), `OFFSET skip LIMIT limit`, and **no `ORDER BY`** — rows come back
in store order. -/
def get_all_videos (db : DB) (skip limit : Nat) (category_id : Option Nat) :
    List VideoListRow :=
  let base : List VideoRow := match category_id with
    | some c => db.videos.filter (fun v => v.category_id == some c)
    | none => db.videos
  (((base.drop skip).take limit)).map (videoListRowOf db)

/-- Decide whether the pattern occurs at the head of the string. -/
def matchesAt : List Char → List Char → Bool
  | [], _ => true
  | _ :: _, [] => false
  | p :: ps, c :: cs => (p == c) && matchesAt ps cs

/-- Decide whether `pat` occurs as a contiguous substring of `s`. -/
def containsSub (s pat : List Char) : Bool :=
  match s with
  | [] => pat.isEmpty
  | _ :: rest => matchesAt pat s || containsSub rest pat

/-- SQL `title ILIKE '%query%'`: case-insensitive substring match. -/
def ilike (title q : String) : Bool :=
  containsSub title.toLower.toList q.toLower.toList

/-- `routers/videos.py::search_videos` (GET `/videos/search`):
`SELECT videos` with an `ILIKE` title filter when `query` is truthy, a
category filter when given, `OFFSET skip LIMIT limit`, and **no
`ORDER BY`**. -/
def search_videos_route (db : DB) (q : Option String) (category_id : Option Nat)
    (skip limit : Nat) : List VideoRow :=
  let s1 : List VideoRow := match q with
    | some qs => if qs == "" then db.videos else db.videos.filter (fun v => ilike v.title qs)
    | none => db.videos
  let s2 : List VideoRow := match category_id with
    | some c => s1.filter (fun v => v.category_id == some c)
    | none => s1
  (s2.drop skip).take limit

/-- The `ORDER BY created_date DESC` relation used by
`crud.get_recent_videos`. -/
def newerEq (a b : VideoRow) : Prop := b.created_date ≤ a.created_date

instance : DecidableRel newerEq := fun a b => Nat.decLe b.created_date a.created_date

instance : IsTotal VideoRow newerEq :=
  ⟨fun a b => Nat.le_total b.created_date a.created_date⟩

instance : IsTrans VideoRow newerEq :=
  ⟨fun _ _ _ hab hbc => Nat.le_trans hbc hab⟩

/-- One element of the `crud.get_recent_videos` response (category
defaults to "Unknown"). -/
structure RecentRow where
  id : Nat
  title : String
  category : String
  created_date : Nat
  vimeo_url : Option String
  vimeo_id : Option String
  thumbnail_url : Option String
  like_count : Nat
  comment_count : Nat
  deriving Repr, DecidableEq

/-- Build the response row of `crud.get_recent_videos` for one video. -/
def recentRowOf (db : DB) (v : VideoRow) : RecentRow :=
  { id := v.id, title := v.title,
    category := (categoryName db v.category_id).getD "Unknown",
    created_date := v.created_date,
    vimeo_url := v.vimeo_url, vimeo_id := v.vimeo_id,
    thumbnail_url := v.thumbnail_url,
    like_count := get_like_count db v.id,
    comment_count := get_comment_count db v.id }

/-- `crud.get_recent_videos`: `SELECT videos ORDER BY created_date DESC
LIMIT limit`, joined with the category name ("Unknown" when absent).  The
sort key is `created_date` alone — there is no secondary `ORDER BY` on
id. -/
def get_recent_videos (db : DB) (limit : Nat) : List RecentRow :=
  (((db.videos.insertionSort newerEq).take limit)).map (recentRowOf db)

/-- Parameter names of `crud.add_comment` as written in `crud.py`. -/
def add_comment_param_names : List String := ["db", "comment", "user_id"]

/-- Keyword-argument names used by the call
`crud.add_comment(db=db, video_id=..., text=..., user_id=...)` in
`routers/comments.py::add_comment`. -/
def add_comment_call_kwarg_names : List String := ["db", "video_id", "text", "user_id"]

/-- A Python keyword-only call binds only if every keyword names a
parameter of the callee; otherwise the call raises `TypeError`
("got an unexpected keyword argument"). -/
def pythonKwargsBind (params kwargs : List String) : Bool :=
  kwargs.all (fun k => params.contains k)

/-- ASCII whitespace, as removed by Python `str.strip()`. -/
def isSpaceChar (c : Char) : Bool :=
  c == ' ' || c == '\t' || c == '\n' || c == '\r'

/-- Python `str.strip()`: drop leading and trailing whitespace. -/
def pyStrip (s : String) : String :=
  String.mk ((((s.toList.dropWhile isSpaceChar).reverse).dropWhile isSpaceChar).reverse)

/-- `routers/comments.py::add_comment` (POST `/comments/`): 404 when the
video does not exist; 400 when the stripped text is empty; 400 when the
text exceeds 500 characters; then the handler calls
`crud.add_comment(db=db, video_id=..., text=..., user_id=...)`, whose
keywords do not match the `(db, comment, user_id)` signature in
`crud.py`, so Python raises `TypeError` before any row is written; the
surrounding `except ValueError` does not catch `TypeError`, so the
request fails with HTTP 500 and the store is unchanged. -/
def add_comment_route (db : DB) (current_user_id video_id : Nat) (text : String) :
    DB × Except ApiError CommentRow :=
  if !(db.videos.any (fun v => v.id == video_id)) then
    (db, Except.error (ApiError.notFound "Video not found"))
  else if (pyStrip text).length == 0 then
    (db, Except.error (ApiError.badRequest "Comment text cannot be empty"))
  else if text.length > 500 then
    (db, Except.error (ApiError.badRequest "Comment cannot exceed 500 characters"))
  else
    (db, Except.error (ApiError.serverError
      "TypeError: add_comment() got an unexpected keyword argument"))

/-! ### Concrete fixtures used by witnesses and counterexamples -/

/-- A regular (non-admin) user. -/
def user1 : UserRow := { id := 1, is_admin := false }

/-- An admin user. -/
def adminUser : UserRow := { id := 2, is_admin := true }

/-- A sample category. -/
def cat1 : CategoryRow := { id := 10, name := "News" }

/-- A published video created at time 5 (inserted into the store first). -/
def vidA : VideoRow :=
  { id := 100, title := "Intro", category_id := some 10,
    vimeo_url := some "https://vimeo.com/100", vimeo_id := some "100",
    thumbnail_url := none, created_date := 5 }

/-- A published video created at time 9 (inserted into the store second). -/
def vidB : VideoRow :=
  { id := 101, title := "Later", category_id := some 10,
    vimeo_url := some "https://vimeo.com/101", vimeo_id := some "101",
    thumbnail_url := none, created_date := 9 }

/-- A comment by `user1` on `vidA`. -/
def com1 : CommentRow := { id := 500, user_id := 1, video_id := 100, text := "hi" }

/-- A like by `adminUser` on `vidA`. -/
def like1 : LikeRow := { id := 600, user_id := 2, video_id := 100 }

/-- A sample store: two users, one category, two videos (older first),
one comment and one like on the first video. -/
def db0 : DB :=
  { users := [user1, adminUser], categories := [cat1],
    videos := [vidA, vidB], likes := [like1], comments := [com1] }

/-! ### Claim theorems -/

/-- C7: an update of a video with an empty change set (no field of
`VideoUpdate` supplied) returns the unchanged video record and performs
no write to the store: the state is returned untouched and the commit
flag is `false`. -/
theorem update_video_noop (db : DB) (v : VideoRow) (u : VideoUpdate)
    (h : u.isEmptySet = true) :
    update_video db v u = (db, v, false) := by
  unfold update_video
  simp [h]

/-- Witness for C7 at a concrete store, video and empty update. -/
theorem update_video_noop_witness :
    (VideoUpdate.isEmptySet { title := none, category_id := none, thumbnail_url := none }) = true ∧
    update_video db0 vidA { title := none, category_id := none, thumbnail_url := none } =
      (db0, vidA, false) :=
  ⟨by decide, update_video_noop db0 vidA _ (by decide)⟩

/-- C8: like and comment counts are live read aggregates over the Like
and Comment rows: `get_like_count` equals the number of Like rows with
the given `video_id`, `get_comment_count` equals the number of Comment
rows with that `video_id`, and both are unaffected by the contents of
the `videos`, `users` and `categories` tables (there is no stored
counter on the Video row that could drift). -/
theorem counts_are_live (db : DB) (video_id : Nat) (vs : List VideoRow)
    (us : List UserRow) (cs : List CategoryRow) :
    get_like_count db video_id = db.likes.countP (fun l => decide (l.video_id = video_id)) ∧
    get_comment_count db video_id = db.comments.countP (fun c => decide (c.video_id = video_id)) ∧
    get_like_count { db with videos := vs, users := us, categories := cs } video_id =
      get_like_count db video_id ∧
    get_comment_count { db with videos := vs, users := us, categories := cs } video_id =
      get_comment_count db video_id := by
  refine ⟨?_, ?_, rfl, rfl⟩
  · rw [get_like_count, List.countP_eq_length_filter]
    simp only [Option.getD_some]
    congr 1
  · rw [get_comment_count, List.countP_eq_length_filter]
    simp only [Option.getD_some]
    congr 1

/-- C10: a comment update or delete by any user other than the author
fails with the authorization `ValueError` and leaves the store
unchanged.  The requester is an arbitrary `UserRow` — in particular its
`is_admin` flag may be `true`: `crud.update_comment` and
`crud.delete_comment` compare only the author id, with no admin
bypass. -/
theorem comment_mutation_author_only (db : DB) (comment_id : Nat) (new_text : String)
    (u : UserRow) (c : CommentRow)
    (hfind : db.comments.find? (fun k => k.id == comment_id) = some c)
    (hne : c.user_id ≠ u.id) :
    update_comment db comment_id new_text u.id =
      (db, Except.error "You are not authorized to edit this comment") ∧
    delete_comment db comment_id u.id =
      (db, Except.error "You are not authorized to delete this comment") := by
  have hbeq : (c.user_id == u.id) = false := by
    simpa using hne
  unfold update_comment delete_comment
  rw [hfind]
  simp [hbeq]

/-- Witness for C10: the admin user (`is_admin = true`) is refused the
update and delete of `user1`'s comment, and the store is unchanged. -/
theorem comment_mutation_author_only_witness :
    db0.comments.find? (fun k => k.id == 500) = some com1 ∧
    com1.user_id ≠ adminUser.id ∧
    update_comment db0 500 "edited" adminUser.id =
      (db0, Except.error "You are not authorized to edit this comment") ∧
    delete_comment db0 500 adminUser.id =
      (db0, Except.error "You are not authorized to delete this comment") := by
  have h := comment_mutation_author_only db0 500 "edited" adminUser com1 (by decide) (by decide)
  exact ⟨by decide, by decide, h.1, h.2⟩

/-- C4: at most one Like per (user, video) pair.  First conjunct: a like
request for a pair that already has a Like row fails with the conflict
`ValueError` (HTTP 400) and leaves the store unchanged.  Remaining
conjuncts: starting from a store where the video has no likes, liking it
succeeds, `likeCount` becomes 1, liking it again by the same user fails
with the conflict error, leaves the store unchanged, and `likeCount`
stays 1. -/
theorem like_at_most_once (db : DB) (u v lid1 lid2 : Nat)
    (h0 : get_like_count db v = 0) :
    (∀ (db2 : DB) (lk : LikeCreate) (nid : Nat),
        (∃ l ∈ db2.likes, l.user_id = lk.user_id ∧ l.video_id = lk.video_id) →
        add_like db2 lk nid = (db2, Except.error "User has already liked this video")) ∧
    isOk (add_like db { user_id := u, video_id := v } lid1).2 = true ∧
    get_like_count (add_like db { user_id := u, video_id := v } lid1).1 v = 1 ∧
    add_like (add_like db { user_id := u, video_id := v } lid1).1
        { user_id := u, video_id := v } lid2 =
      ((add_like db { user_id := u, video_id := v } lid1).1,
        Except.error "User has already liked this video") ∧
    get_like_count (add_like db { user_id := u, video_id := v } lid1).1 v = 1 := by
  have hgen : ∀ (db2 : DB) (lk : LikeCreate) (nid : Nat),
      (∃ l ∈ db2.likes, l.user_id = lk.user_id ∧ l.video_id = lk.video_id) →
      add_like db2 lk nid = (db2, Except.error "User has already liked this video") := by
    intro db2 lk nid ⟨l, hl, hu, hv⟩
    have hany : db2.likes.any (fun l => l.user_id == lk.user_id && l.video_id == lk.video_id) = true := by
      rw [List.any_eq_true]
      exact ⟨l, hl, by simp [hu, hv]⟩
    unfold add_like
    simp [hany]
  have hnone : ∀ l ∈ db.likes, (l.video_id == v) = false := by
    have hmem : ∀ a ∈ db.likes, ¬ a.video_id = v := by
      simpa [get_like_count] using h0
    intro l hl
    simpa using hmem l hl
  have hany1 : db.likes.any (fun l => l.user_id == u && l.video_id == v) = false := by
    rw [List.any_eq_false]
    intro l hl
    simp [hnone l hl]
  have hfilnil : db.likes.filter (fun l => l.video_id == v) = [] := by
    rw [List.filter_eq_nil_iff]
    intro l hl
    simp [hnone l hl]
  have hstep : add_like db { user_id := u, video_id := v } lid1 =
      ({ db with likes := db.likes ++ [{ id := lid1, user_id := u, video_id := v }] },
        Except.ok { id := lid1, user_id := u, video_id := v }) := by
    unfold add_like
    simp [hany1]
  have hcount : get_like_count (add_like db { user_id := u, video_id := v } lid1).1 v = 1 := by
    rw [hstep]
    simp [get_like_count, List.filter_append, hfilnil]
  refine ⟨hgen, ?_, hcount, ?_, hcount⟩
  · rw [hstep]; rfl
  · apply hgen
    rw [hstep]
    exact ⟨{ id := lid1, user_id := u, video_id := v }, by simp, rfl, rfl⟩

/-- Witness for C4: liking `vidB` (no likes yet) in the sample store,
then liking again with the same user. -/
theorem like_at_most_once_witness :
    get_like_count db0 101 = 0 ∧
    isOk (add_like db0 { user_id := 1, video_id := 101 } 700).2 = true ∧
    get_like_count (add_like db0 { user_id := 1, video_id := 101 } 700).1 101 = 1 ∧
    add_like (add_like db0 { user_id := 1, video_id := 101 } 700).1
        { user_id := 1, video_id := 101 } 701 =
      ((add_like db0 { user_id := 1, video_id := 101 } 700).1,
        Except.error "User has already liked this video") := by
  have h := like_at_most_once db0 1 101 700 701 (by decide)
  exact ⟨by decide, h.2.1, h.2.2.1, h.2.2.2.1⟩

/-- C1: delete is all-or-none on catalog state.  When the Vimeo delete of
a stored video (with a truthy `vimeo_id`, so the external call is made)
fails, the handler reports the HTTP 500 "Vimeo API error" and the
transaction rolls back: the store is exactly the original one, so the
Video, its Comments and its Likes all remain.  When the external delete
succeeds, the single transaction commits a state in which the Video row
and every Comment and Like row of that video are gone, while every row
belonging to other videos survives. -/
theorem delete_video_all_or_none (db : DB) (video_id : Nat) (v : VideoRow)
    (hfind : db.videos.find? (fun w => w.id == video_id) = some v)
    (hext : vimeoIdTruthy v = true) :
    (delete_video_route db video_id false =
      (db, Except.error (ApiError.serverError "Vimeo API error"))) ∧
    (isOk (delete_video_route db video_id true).2 = true ∧
     (∀ w ∈ (delete_video_route db video_id true).1.videos, w.id ≠ video_id) ∧
     (∀ c ∈ (delete_video_route db video_id true).1.comments, c.video_id ≠ video_id) ∧
     (∀ l ∈ (delete_video_route db video_id true).1.likes, l.video_id ≠ video_id) ∧
     (∀ w ∈ db.videos, w.id ≠ video_id → w ∈ (delete_video_route db video_id true).1.videos) ∧
     (∀ c ∈ db.comments, c.video_id ≠ video_id → c ∈ (delete_video_route db video_id true).1.comments) ∧
     (∀ l ∈ db.likes, l.video_id ≠ video_id → l ∈ (delete_video_route db video_id true).1.likes)) := by
  have hfail : delete_video_route db video_id false =
      (db, Except.error (ApiError.serverError "Vimeo API error")) := by
    unfold delete_video_route
    rw [hfind]
    simp [hext]
  have hok : delete_video_route db video_id true =
      ({ db with
          comments := db.comments.filter (fun c => !(c.video_id == video_id)),
          likes := db.likes.filter (fun l => !(l.video_id == video_id)),
          videos := db.videos.filter (fun w => !(w.id == video_id)) },
        Except.ok "Video deleted successfully") := by
    unfold delete_video_route
    rw [hfind]
    simp
  refine ⟨hfail, ?_, ?_, ?_, ?_, ?_, ?_, ?_⟩ <;> rw [hok]
  · rfl
  · intro w hw
    have := (List.mem_filter.mp hw).2
    simpa using this
  · intro c hc
    have := (List.mem_filter.mp hc).2
    simpa using this
  · intro l hl
    have := (List.mem_filter.mp hl).2
    simpa using this
  · intro w hw hne
    exact List.mem_filter.mpr ⟨hw, by simpa using hne⟩
  · intro c hc hne
    exact List.mem_filter.mpr ⟨hc, by simpa using hne⟩
  · intro l hl hne
    exact List.mem_filter.mpr ⟨hl, by simpa using hne⟩

/-- Witness for C1 at the sample store: deleting `vidA` (which has a
comment and a like) with a failing external delete reports the error and
leaves the store unchanged; with a succeeding external delete the video
and its engagement rows are gone. -/
theorem delete_video_all_or_none_witness :
    db0.videos.find? (fun w => w.id == 100) = some vidA ∧
    vimeoIdTruthy vidA = true ∧
    delete_video_route db0 100 false =
      (db0, Except.error (ApiError.serverError "Vimeo API error")) ∧
    isOk (delete_video_route db0 100 true).2 = true := by
  have h := delete_video_all_or_none db0 100 vidA (by decide) (by decide)
  exact ⟨by decide, by decide, h.1, h.2.1⟩

/-- C9 (code bug): for an authenticated user, an existing video and a
text of 1 to 500 characters (non-blank), the add-comment endpoint does
not persist a comment: the handler's keyword call into
`crud.add_comment` does not bind against that function's
`(db, comment, user_id)` parameters, so the request fails with a
`TypeError`-driven HTTP 500 and the store is returned unchanged. -/
theorem add_comment_route_type_error (db : DB) (uid video_id : Nat) (text : String)
    (hvid : db.videos.any (fun v => v.id == video_id) = true)
    (hne : (pyStrip text).length ≠ 0)
    (hlen : text.length ≤ 500) :
    pythonKwargsBind add_comment_param_names add_comment_call_kwarg_names = false ∧
    add_comment_route db uid video_id text =
      (db, Except.error (ApiError.serverError
        "TypeError: add_comment() got an unexpected keyword argument")) := by
  refine ⟨by decide, ?_⟩
  have hgt : ¬ (text.length > 500) := by omega
  unfold add_comment_route
  simp [hvid, hne, hgt]

/-- Witness for C9: a valid comment request on the sample store. -/
theorem add_comment_route_type_error_witness :
    db0.videos.any (fun v => v.id == 100) = true ∧
    (pyStrip "nice video").length ≠ 0 ∧
    "nice video".length ≤ 500 ∧
    add_comment_route db0 1 100 "nice video" =
      (db0, Except.error (ApiError.serverError
        "TypeError: add_comment() got an unexpected keyword argument")) := by
  have h := add_comment_route_type_error db0 1 100 "nice video" (by decide) (by decide) (by decide)
  exact ⟨by decide, by decide, by decide, h.2⟩

/-- The order claimed by the spec for listing rows: newest-created first
with a stable secondary order by id on timestamp ties, checked on
adjacent elements. -/
def newestFirstRows : List VideoListRow → Bool
  | [] => true
  | [_] => true
  | a :: b :: rest =>
      (decide (b.created_date < a.created_date) ||
        (decide (b.created_date = a.created_date) && decide (a.id < b.id))) &&
      newestFirstRows (b :: rest)

/-- The same order check on raw video rows (for the search endpoint). -/
def newestFirstVideos : List VideoRow → Bool
  | [] => true
  | [_] => true
  | a :: b :: rest =>
      (decide (b.created_date < a.created_date) ||
        (decide (b.created_date = a.created_date) && decide (a.id < b.id))) &&
      newestFirstVideos (b :: rest)

/-- Counterexample for C6: in the sample store the older video `vidA`
(created at 5) was inserted before the newer `vidB` (created at 9), and
both `crud.get_all_videos` and the search endpoint return them in store
order — oldest first — because neither query has an `ORDER BY`.  The
claimed newest-created-first order is violated. -/
theorem listing_not_newest_first :
    newestFirstRows (get_all_videos db0 0 100 none) = false ∧
    newestFirstVideos (search_videos_route db0 none none 0 100) = false := by
  constructor <;> rfl

/-- C6 amended: `get_all_videos` and `search_videos` apply no ordering at
all — they return the offset/limit window of the rows in store
(insertion) order — while `get_recent_videos` alone sorts, by
`created_date` descending with no secondary order on id.  First two
conjuncts: the listed ids are exactly the windowed store ids, in store
order.  Last conjunct: the recent listing is pairwise nonincreasing in
`created_date`. -/
theorem listing_order_as_coded (db : DB) (skip limit lim2 : Nat) :
    ((get_all_videos db skip limit none).map (fun r => r.id) =
      ((db.videos.drop skip).take limit).map (fun v => v.id)) ∧
    ((search_videos_route db none none skip limit).map (fun v => v.id) =
      ((db.videos.drop skip).take limit).map (fun v => v.id)) ∧
    (get_recent_videos db lim2).Pairwise (fun a b => b.created_date ≤ a.created_date) := by
  have h1 : (get_all_videos db skip limit none).map (fun r => r.id) =
      ((db.videos.drop skip).take limit).map (fun v => v.id) := by
    rw [get_all_videos]
    simp only [List.map_map]
    apply List.map_congr_left
    intro a _
    rfl
  refine ⟨h1, rfl, ?_⟩
  have hsorted : (db.videos.insertionSort newerEq).Pairwise newerEq :=
    List.sorted_insertionSort newerEq db.videos
  have htake : ((db.videos.insertionSort newerEq).take lim2).Pairwise newerEq :=
    List.Pairwise.sublist (List.take_sublist lim2 _) hsorted
  rw [get_recent_videos, List.pairwise_map]
  exact htake

/-- Counterexample for C2: a create request with a valid mp4, no
thumbnail, a successful Vimeo upload and a failing database persist.
The handler reports the creation error, but the external-action trace
contains no Vimeo delete: the claimed best-effort compensation attempt
is never made (and the store is unchanged, orphaning the uploaded
asset). -/
theorem create_no_compensation_cex :
    isOk (create_video_route db0 "Intro" 10 "video/mp4" none
      (Except.ok { vimeo_url := "https://vimeo.com/1", vimeo_id := "1" })
      true "" false 200 7).result = false ∧
    (create_video_route db0 "Intro" 10 "video/mp4" none
      (Except.ok { vimeo_url := "https://vimeo.com/1", vimeo_id := "1" })
      true "" false 200 7).actions = [ExtAction.vimeoUpload] ∧
    hasVimeoDelete (create_video_route db0 "Intro" 10 "video/mp4" none
      (Except.ok { vimeo_url := "https://vimeo.com/1", vimeo_id := "1" })
      true "" false 200 7).actions = false := by
  refine ⟨rfl, rfl, rfl⟩

/-- C2 amended: if persisting the Video record fails after the external
upload succeeded, the operation reports a single creation error and
leaves the store unchanged, but makes **no** attempt to delete the
just-uploaded external asset — the asset is orphaned without a
compensation call.  Holds for any request whose video type (and
thumbnail type, when supplied) passes validation. -/
theorem create_persist_fail_no_compensation (db : DB) (title : String)
    (category_id : Nat) (fileType : String) (thumbType : Option String)
    (vd : UploadData) (thumbUrl : String) (new_id now : Nat)
    (hft : allowedVideoTypes.contains fileType = true)
    (htt : ∀ t, thumbType = some t → allowedImageTypes.contains t = true) :
    (create_video_route db title category_id fileType thumbType
        (Except.ok vd) true thumbUrl false new_id now).result =
      Except.error (ApiError.serverError "Failed to save video to database") ∧
    (create_video_route db title category_id fileType thumbType
        (Except.ok vd) true thumbUrl false new_id now).db = db ∧
    ExtAction.vimeoUpload ∈ (create_video_route db title category_id fileType thumbType
        (Except.ok vd) true thumbUrl false new_id now).actions ∧
    hasVimeoDelete (create_video_route db title category_id fileType thumbType
        (Except.ok vd) true thumbUrl false new_id now).actions = false := by
  cases thumbType with
  | none =>
      unfold create_video_route
      rw [hft]
      simp [hasVimeoDelete]
  | some t =>
      have ht : t ∈ allowedImageTypes := by simpa using htt t rfl
      unfold create_video_route
      rw [hft]
      simp [ht, hasVimeoDelete]

/-- Witness for C2's amended theorem at a concrete request (with a valid
thumbnail supplied, so both external effects precede the failure). -/
theorem create_persist_fail_no_compensation_witness :
    allowedVideoTypes.contains "video/mp4" = true ∧
    (create_video_route db0 "Intro" 10 "video/mp4" (some "image/png")
        (Except.ok { vimeo_url := "https://vimeo.com/1", vimeo_id := "1" })
        true "/thumbnails/t.png" false 200 7).result =
      Except.error (ApiError.serverError "Failed to save video to database") ∧
    (create_video_route db0 "Intro" 10 "video/mp4" (some "image/png")
        (Except.ok { vimeo_url := "https://vimeo.com/1", vimeo_id := "1" })
        true "/thumbnails/t.png" false 200 7).db = db0 ∧
    hasVimeoDelete (create_video_route db0 "Intro" 10 "video/mp4" (some "image/png")
        (Except.ok { vimeo_url := "https://vimeo.com/1", vimeo_id := "1" })
        true "/thumbnails/t.png" false 200 7).actions = false := by
  have h := create_persist_fail_no_compensation db0 "Intro" 10 "video/mp4"
    (some "image/png") { vimeo_url := "https://vimeo.com/1", vimeo_id := "1" }
    "/thumbnails/t.png" 200 7 (by decide)
    (by intro t ht; cases ht; decide)
  exact ⟨by decide, h.1, h.2.1, h.2.2.2⟩

/-- Counterexample for C3: a create request with a valid mp4 and a valid
PNG thumbnail whose storage fails after a successful Vimeo upload.  The
claim says the catalog record is still created (without thumbnail) and
the operation reports success; the code instead reports an HTTP 500 and
creates no record — the store is unchanged. -/
theorem create_thumb_fail_aborts_cex :
    isOk (create_video_route db0 "Intro" 10 "video/mp4" (some "image/png")
      (Except.ok { vimeo_url := "https://vimeo.com/1", vimeo_id := "1" })
      false "/thumbnails/t.png" true 200 7).result = false ∧
    (create_video_route db0 "Intro" 10 "video/mp4" (some "image/png")
      (Except.ok { vimeo_url := "https://vimeo.com/1", vimeo_id := "1" })
      false "/thumbnails/t.png" true 200 7).db = db0 := by
  refine ⟨rfl, rfl⟩

/-- C3 amended: if storing the supplied thumbnail fails after the video
upload already succeeded, the operation aborts with the HTTP 500
"Failed to upload thumbnail" error and creates **no** catalog record:
thumbnail-storage failure is fatal to video creation (and no
compensating Vimeo delete is attempted either). -/
theorem create_thumb_fail_aborts (db : DB) (title : String) (category_id : Nat)
    (fileType thumbContentType : String) (vd : UploadData) (thumbUrl : String)
    (persistOk : Bool) (new_id now : Nat)
    (hft : allowedVideoTypes.contains fileType = true)
    (htt : allowedImageTypes.contains thumbContentType = true) :
    (create_video_route db title category_id fileType (some thumbContentType)
        (Except.ok vd) false thumbUrl persistOk new_id now).result =
      Except.error (ApiError.serverError "Failed to upload thumbnail") ∧
    (create_video_route db title category_id fileType (some thumbContentType)
        (Except.ok vd) false thumbUrl persistOk new_id now).db = db ∧
    hasVimeoDelete (create_video_route db title category_id fileType (some thumbContentType)
        (Except.ok vd) false thumbUrl persistOk new_id now).actions = false := by
  have htm : thumbContentType ∈ allowedImageTypes := by simpa using htt
  unfold create_video_route
  rw [hft]
  simp [htm, hasVimeoDelete]

/-- Witness for C3's amended theorem at a concrete request. -/
theorem create_thumb_fail_aborts_witness :
    allowedVideoTypes.contains "video/mp4" = true ∧
    allowedImageTypes.contains "image/png" = true ∧
    (create_video_route db0 "Intro" 10 "video/mp4" (some "image/png")
        (Except.ok { vimeo_url := "https://vimeo.com/1", vimeo_id := "1" })
        false "/thumbnails/t.png" true 200 7).result =
      Except.error (ApiError.serverError "Failed to upload thumbnail") ∧
    (create_video_route db0 "Intro" 10 "video/mp4" (some "image/png")
        (Except.ok { vimeo_url := "https://vimeo.com/1", vimeo_id := "1" })
        false "/thumbnails/t.png" true 200 7).db = db0 := by
  have h := create_thumb_fail_aborts db0 "Intro" 10 "video/mp4" "image/png"
    { vimeo_url := "https://vimeo.com/1", vimeo_id := "1" }
    "/thumbnails/t.png" true 200 7 (by decide) (by decide)
  exact ⟨by decide, by decide, h.1, h.2.1⟩

/-- A Video row is "published": it carries a non-empty external media
reference (`vimeo_url`). -/
def hasMediaRef (v : VideoRow) : Bool :=
  match v.vimeo_url with
  | some s => !(s == "")
  | none => false

/-- The published check on a `crud.get_all_videos` response row. -/
def listRowHasMediaRef (r : VideoListRow) : Bool :=
  match r.vimeo_url with
  | some s => !(s == "")
  | none => false

/-- The published check on a `crud.get_recent_videos` response row. -/
def recentRowHasMediaRef (r : RecentRow) : Bool :=
  match r.vimeo_url with
  | some s => !(s == "")
  | none => false

/-- Modelled from the spec: `vimeo_client.upload_to_vimeo` (imported by
`routers/videos.py` but not present in the repository sources).  Per
§4.1 of the spec, a successful upload returns a stable external
reference, i.e. the `vimeo_url` of a successful `uploadResult` is
non-empty.  This predicate states that assumption about the oracle. -/
def GatewayReturnsRef (uploadResult : Except String UploadData) : Prop :=
  ∀ d, uploadResult = Except.ok d → d.vimeo_url ≠ ""

/-- C5: under the spec-modelled gateway contract (successful uploads
return a non-empty reference) and the invariant that every stored video
is published, (1) any video returned by a successful create has a
non-empty media reference, (2) the store after any create run still
contains only published videos, and (3–5) the listing endpoints
(`crud.get_all_videos`, the `/videos/search` handler and
`crud.get_recent_videos`) only ever return published videos — no
provisioning video is exposed through listings. -/
theorem creations_and_listings_published (db : DB) (title : String)
    (category_id : Nat) (fileType : String) (thumbType : Option String)
    (uploadResult : Except String UploadData) (thumbStoreOk : Bool)
    (thumbUrl : String) (persistOk : Bool) (new_id now : Nat)
    (skip limit lim2 : Nat) (cat : Option Nat) (q : Option String)
    (hgw : GatewayReturnsRef uploadResult)
    (hinv : ∀ v ∈ db.videos, hasMediaRef v = true) :
    (∀ v, (create_video_route db title category_id fileType thumbType uploadResult
        thumbStoreOk thumbUrl persistOk new_id now).result = Except.ok v →
      hasMediaRef v = true) ∧
    (∀ v ∈ (create_video_route db title category_id fileType thumbType uploadResult
        thumbStoreOk thumbUrl persistOk new_id now).db.videos,
      hasMediaRef v = true) ∧
    (∀ r ∈ get_all_videos db skip limit cat, listRowHasMediaRef r = true) ∧
    (∀ v ∈ search_videos_route db q cat skip limit, hasMediaRef v = true) ∧
    (∀ r ∈ get_recent_videos db lim2, recentRowHasMediaRef r = true) := by
  refine ⟨?_, ?_, ?_, ?_, ?_⟩
  · intro v hv
    rcases uploadResult with e | vd
    · simp only [create_video_route] at hv
      split at hv
      · exact absurd hv (by simp)
      · split at hv
        · exact absurd hv (by simp)
        · exact absurd hv (by simp)
    · simp only [create_video_route] at hv
      split at hv
      · exact absurd hv (by simp)
      · split at hv
        · exact absurd hv (by simp)
        · split at hv
          · exact absurd hv (by simp)
          · split at hv
            · exact absurd hv (by simp)
            · simp only [Except.ok.injEq] at hv
              subst hv
              have hne := hgw vd rfl
              simp [hasMediaRef, hne]
  · intro v hv
    rcases uploadResult with e | vd
    · simp only [create_video_route] at hv
      split at hv
      · exact hinv v hv
      · split at hv
        · exact hinv v hv
        · exact hinv v hv
    · simp only [create_video_route] at hv
      split at hv
      · exact hinv v hv
      · split at hv
        · exact hinv v hv
        · split at hv
          · exact hinv v hv
          · split at hv
            · exact hinv v hv
            · simp only [List.mem_append, List.mem_singleton] at hv
              rcases hv with hv | hv
              · exact hinv v hv
              · subst hv
                have hne := hgw vd rfl
                simp [hasMediaRef, hne]
  · intro r hr
    unfold get_all_videos at hr
    obtain ⟨v, hv, hrv⟩ := List.mem_map.mp hr
    have hvdb : v ∈ db.videos := by
      have h1 := List.take_subset _ _ hv
      have h2 := List.drop_subset _ _ h1
      cases cat with
      | none => exact h2
      | some c => exact List.filter_subset' _ h2
    have := hinv v hvdb
    rw [← hrv]
    simpa [listRowHasMediaRef, videoListRowOf, hasMediaRef] using this
  · intro v hv
    have hsub : ∀ (l : List VideoRow), l ⊆ db.videos →
        v ∈ List.take limit (List.drop skip l) → v ∈ db.videos := by
      intro l hl hm
      exact hl (List.drop_subset _ _ (List.take_subset _ _ hm))
    have hvdb : v ∈ db.videos := by
      rcases q with _ | qs <;> rcases cat with _ | c <;>
        simp only [search_videos_route] at hv
      · exact hsub db.videos (fun a ha => ha) hv
      · exact hsub _ (List.filter_subset' _) hv
      · split at hv
        · exact hsub db.videos (fun a ha => ha) hv
        · exact hsub _ (List.filter_subset' _) hv
      · split at hv
        · exact hsub _ (List.filter_subset' _) hv
        · exact hsub _ (fun a ha => List.filter_subset' _ (List.filter_subset' _ ha)) hv
    exact hinv v hvdb
  · intro r hr
    rw [get_recent_videos] at hr
    obtain ⟨v, hv, hrv⟩ := List.mem_map.mp hr
    have h1 := List.take_subset _ _ hv
    have hvdb : v ∈ db.videos := (List.perm_insertionSort newerEq db.videos).subset h1
    have := hinv v hvdb
    rw [← hrv]
    simpa [recentRowHasMediaRef, recentRowOf, hasMediaRef] using this

/-- Witness for C5 at the sample store (all stored videos published) and
a concrete successful create. -/
theorem creations_and_listings_published_witness :
    GatewayReturnsRef (Except.ok { vimeo_url := "https://vimeo.com/1", vimeo_id := "1" }) ∧
    (∀ v ∈ db0.videos, hasMediaRef v = true) ∧
    (∀ v, (create_video_route db0 "Intro" 10 "video/mp4" none
        (Except.ok { vimeo_url := "https://vimeo.com/1", vimeo_id := "1" })
        true "" true 200 7).result = Except.ok v → hasMediaRef v = true) ∧
    (∀ r ∈ get_all_videos db0 0 100 none, listRowHasMediaRef r = true) := by
  have hgw : GatewayReturnsRef
      (Except.ok { vimeo_url := "https://vimeo.com/1", vimeo_id := "1" }) := by
    intro d hd
    cases hd
    decide
  have hinv : ∀ v ∈ db0.videos, hasMediaRef v = true := by decide
  have h := creations_and_listings_published db0 "Intro" 10 "video/mp4" none
    (Except.ok { vimeo_url := "https://vimeo.com/1", vimeo_id := "1" })
    true "" true 200 7 0 100 5 none none hgw hinv
  exact ⟨hgw, hinv, h.1, h.2.2.1⟩

end VideoApp
